import Mathlib

/-!
Verification of the handshake-simulation and comparative-metrics engine of the
vpn-post-cuantica repository, as a shallow embedding in Lean 4.

Python floats are modelled as rationals; every random draw made by the source
(`random.uniform`, `random.randint`, `random.random`) is passed in explicitly
as a parameter, so each source function becomes a pure function of its inputs
and its sampled values.  Exceptions raised by the source become
`Except String` results.
-/

namespace VPNSim

/-- The `VPNMetrics` dataclass of `src/vpn_pqc_simulation.py` (the `src/src`
file): one record per established tunnel.  The `timestamp` string carries no
numeric content and is omitted. -/
structure VPNMetrics where
  vpn_type : String
  keygen_time : ℚ
  key_exchange_time : ℚ
  handshake_total_time : ℚ
  encryption_time : ℚ
  decryption_time : ℚ
  key_size : ℚ
  ciphertext_size : ℚ
  signature_size : ℚ
  latency_ms : ℚ
  throughput_mbps : ℚ
  packet_loss_percent : ℚ
  cpu_usage_percent : ℚ
  memory_mb : ℚ
deriving DecidableEq

/-- The random draws consumed by `VPNTunnel._establish_traditional`:
the elapsed times returned by `key_generation`, `key_exchange` and
`encrypt_data`, plus the six environmental samples. -/
structure TradDraws where
  keygen_time : ℚ
  kex_time : ℚ
  enc_time : ℚ
  base_latency : ℚ
  overhead_latency : ℚ
  throughput : ℚ
  packet_loss : ℚ
  cpu_usage : ℚ
  memory_mb : ℚ
deriving DecidableEq

/-- The random draws consumed by `VPNTunnel._establish_postquantum`. -/
structure PQDraws where
  keygen_time : ℚ
  encap_time : ℚ
  decap_time : ℚ
  sign_time : ℚ
  verify_time : ℚ
  enc_time : ℚ
  base_latency : ℚ
  overhead_latency : ℚ
  throughput : ℚ
  packet_loss : ℚ
  cpu_usage : ℚ
  memory_mb : ℚ
deriving DecidableEq

/-- `VPNTunnel._establish_traditional` (src/src/vpn_pqc_simulation.py, lines
190 to 243).  `key_generation(2048)` returns `2048 // 8 = 256` key bytes,
`handshake_total = keygen_time + kex_time`, the encryption test comes after
the total is formed, `decryption_time = enc_time * 1.1`, ciphertext size is
`packet_size_kb * 1024` and the RSA-2048 signature size is 256. -/
def establishTraditional (packet_size_kb : ℚ) (d : TradDraws) : VPNMetrics :=
  { vpn_type := "Traditional"
    keygen_time := d.keygen_time
    key_exchange_time := d.kex_time
    handshake_total_time := d.keygen_time + d.kex_time
    encryption_time := d.enc_time
    decryption_time := d.enc_time * (11 / 10)
    key_size := 256
    ciphertext_size := packet_size_kb * 1024
    signature_size := 256
    latency_ms := d.base_latency + d.overhead_latency
    throughput_mbps := d.throughput
    packet_loss_percent := d.packet_loss
    cpu_usage_percent := d.cpu_usage
    memory_mb := d.memory_mb }

/-- `VPNTunnel._establish_postquantum` (src/src/vpn_pqc_simulation.py, lines
245 to 313).  `kyber_keygen` returns `1184 + 2400 = 3584` key bytes, the
Kyber768 ciphertext is 1088 bytes, the Dilithium3 signature 3293 bytes,
`handshake_total = keygen + encap + decap + sign + verify`, the encryption
test comes after the total is formed, and
`decryption_time = enc_time * 1.1`. -/
def establishPostQuantum (packet_size_kb : ℚ) (d : PQDraws) : VPNMetrics :=
  { vpn_type := "PostQuantum"
    keygen_time := d.keygen_time
    key_exchange_time := d.encap_time + d.decap_time
    handshake_total_time :=
      d.keygen_time + d.encap_time + d.decap_time + d.sign_time + d.verify_time
    encryption_time := d.enc_time
    decryption_time := d.enc_time * (11 / 10)
    key_size := 3584
    ciphertext_size := 1088
    signature_size := 3293
    latency_ms := d.base_latency + d.overhead_latency
    throughput_mbps := d.throughput
    packet_loss_percent := d.packet_loss
    cpu_usage_percent := d.cpu_usage
    memory_mb := d.memory_mb }

/-- The helper `avg` of `VPNAnalyzer.generate_report`
(src/src/vpn_pqc_simulation.py, lines 378 to 380):
`statistics.mean(values) if values else 0`. -/
def avgValues (l : List ℚ) : ℚ :=
  if l = [] then 0 else l.sum / (l.length : ℚ)

/-- Per-field mean over a list of records, as `avg(metrics, field)` does. -/
def avgField (ms : List VPNMetrics) (f : VPNMetrics → ℚ) : ℚ :=
  avgValues (ms.map f)

/-- The sample standard deviation `statistics.stdev` of a list of values:
the square root of the sum of squared deviations from the mean divided by
`n - 1`. -/
noncomputable def sampleStdev (l : List ℚ) : ℝ :=
  Real.sqrt
    ((l.map (fun x => ((x : ℝ) - ((l.sum / (l.length : ℚ) : ℚ) : ℝ)) ^ 2)).sum /
      ((l.length : ℝ) - 1))

/-- The helper `stdev` of `VPNAnalyzer.generate_report`
(src/src/vpn_pqc_simulation.py, lines 382 to 384):
`statistics.stdev(values) if len(values) > 1 else 0`. -/
noncomputable def stdevField (ms : List VPNMetrics) (f : VPNMetrics → ℚ) : ℝ :=
  if 1 < (ms.map f).length then sampleStdev (ms.map f) else 0

/-- `[m for m in self.metrics if m.vpn_type == "Traditional"]`. -/
def tradRecords (metrics : List VPNMetrics) : List VPNMetrics :=
  metrics.filter (fun m => m.vpn_type == "Traditional")

/-- `[m for m in self.metrics if m.vpn_type == "PostQuantum"]`. -/
def pqcRecords (metrics : List VPNMetrics) : List VPNMetrics :=
  metrics.filter (fun m => m.vpn_type == "PostQuantum")

/-- The per-family block of the report built by `generate_report`
(src/src/vpn_pqc_simulation.py, lines 386 to 405): six field means, with the
handshake mean converted to milliseconds. -/
structure FamilyAvgs where
  avg_handshake_ms : ℚ
  avg_latency_ms : ℚ
  avg_throughput_mbps : ℚ
  avg_cpu_percent : ℚ
  avg_memory_mb : ℚ
  avg_key_size_bytes : ℚ
deriving DecidableEq

/-- Builds one family block of the report from the family records. -/
def familyAvgs (ms : List VPNMetrics) : FamilyAvgs :=
  { avg_handshake_ms := avgField ms (fun m => m.handshake_total_time) * 1000
    avg_latency_ms := avgField ms (fun m => m.latency_ms)
    avg_throughput_mbps := avgField ms (fun m => m.throughput_mbps)
    avg_cpu_percent := avgField ms (fun m => m.cpu_usage_percent)
    avg_memory_mb := avgField ms (fun m => m.memory_mb)
    avg_key_size_bytes := avgField ms (fun m => m.key_size) }

/-- Traditional-family block of the report. -/
def tradAvgs (metrics : List VPNMetrics) : FamilyAvgs :=
  familyAvgs (tradRecords metrics)

/-- Post-quantum-family block of the report. -/
def pqcAvgs (metrics : List VPNMetrics) : FamilyAvgs :=
  familyAvgs (pqcRecords metrics)

/-- The `overhead_analysis` dictionary of `generate_report`
(src/src/vpn_pqc_simulation.py, lines 408 to 421). -/
structure OverheadAnalysis where
  handshake_overhead_percent : ℚ
  latency_overhead_percent : ℚ
  throughput_degradation_percent : ℚ
  cpu_overhead_percent : ℚ
  memory_overhead_percent : ℚ
  key_size_increase_percent : ℚ
deriving DecidableEq

/-- The overhead computation of `generate_report`
(src/src/vpn_pqc_simulation.py, lines 407 to 421).  The Python dictionary
literal evaluates its six ratios in order and a zero denominator raises
`ZeroDivisionError` at that point; this is embedded as a chain of zero tests
in the same order, each producing the error.  Note the orientation of the
six divisions in the source: every dimension divides the post-quantum mean
by the traditional mean except throughput, which divides the traditional
mean by the post-quantum mean. -/
def overheadAnalysis (metrics : List VPNMetrics) : Except String OverheadAnalysis :=
  if (tradAvgs metrics).avg_handshake_ms = 0 then .error "ZeroDivisionError"
  else if (tradAvgs metrics).avg_latency_ms = 0 then .error "ZeroDivisionError"
  else if (pqcAvgs metrics).avg_throughput_mbps = 0 then .error "ZeroDivisionError"
  else if (tradAvgs metrics).avg_cpu_percent = 0 then .error "ZeroDivisionError"
  else if (tradAvgs metrics).avg_memory_mb = 0 then .error "ZeroDivisionError"
  else if (tradAvgs metrics).avg_key_size_bytes = 0 then .error "ZeroDivisionError"
  else .ok
    { handshake_overhead_percent :=
        ((pqcAvgs metrics).avg_handshake_ms / (tradAvgs metrics).avg_handshake_ms - 1) * 100
      latency_overhead_percent :=
        ((pqcAvgs metrics).avg_latency_ms / (tradAvgs metrics).avg_latency_ms - 1) * 100
      throughput_degradation_percent :=
        ((tradAvgs metrics).avg_throughput_mbps / (pqcAvgs metrics).avg_throughput_mbps - 1) * 100
      cpu_overhead_percent :=
        ((pqcAvgs metrics).avg_cpu_percent / (tradAvgs metrics).avg_cpu_percent - 1) * 100
      memory_overhead_percent :=
        ((pqcAvgs metrics).avg_memory_mb / (tradAvgs metrics).avg_memory_mb - 1) * 100
      key_size_increase_percent :=
        ((pqcAvgs metrics).avg_key_size_bytes / (tradAvgs metrics).avg_key_size_bytes - 1) * 100 }

/-- A concrete record with every numeric field 1 except the type tag, the
throughput and the handshake total: used to exercise the analyzer on
explicit inputs. -/
def sampleMetric (ty : String) (thr hs : ℚ) : VPNMetrics :=
  { vpn_type := ty
    keygen_time := 1
    key_exchange_time := 1
    handshake_total_time := hs
    encryption_time := 1
    decryption_time := 1
    key_size := 1
    ciphertext_size := 1
    signature_size := 1
    latency_ms := 1
    throughput_mbps := thr
    packet_loss_percent := 1
    cpu_usage_percent := 1
    memory_mb := 1 }

/-- Record set with traditional mean throughput 100 and post-quantum mean
throughput 50, every other mean nonzero. -/
def cexThroughputMetrics : List VPNMetrics :=
  [sampleMetric "Traditional" 100 1, sampleMetric "PostQuantum" 50 1]

/-- Record set whose traditional throughput mean is exactly zero while every
denominator actually used by the source is nonzero. -/
def cexZeroTradThroughput : List VPNMetrics :=
  [sampleMetric "Traditional" 0 1, sampleMetric "PostQuantum" 1 1]

/-- The report the analyzer produces on `cexThroughputMetrics`. -/
def cexReport : OverheadAnalysis :=
  { handshake_overhead_percent := 0
    latency_overhead_percent := 0
    throughput_degradation_percent := 100
    cpu_overhead_percent := 0
    memory_overhead_percent := 0
    key_size_increase_percent := 0 }

/-- Result of `VPNTunnel.send_data` (src/src/vpn_pqc_simulation.py, lines
324 to 328). -/
structure SendResult where
  size_kb : ℚ
  encryption_time_ms : ℚ
  total_time_ms : ℚ
deriving DecidableEq

/-- The mutable state of a `VPNTunnel` object: its constructor arguments and
the `established` flag (src/src/vpn_pqc_simulation.py, lines 170 to 175). -/
structure VPNTunnel where
  tunnel_type : String
  packet_size_kb : ℚ
  established : Bool
deriving DecidableEq

/-- `VPNTunnel.__init__`: a freshly constructed tunnel has
`established = False`. -/
def VPNTunnel.init (tunnel_type : String) (packet_size_kb : ℚ) : VPNTunnel :=
  { tunnel_type := tunnel_type, packet_size_kb := packet_size_kb, established := false }

/-- The error message raised by `send_data` on an unestablished tunnel. -/
def tunnelNotEstablishedMsg : String :=
  "Túnel no establecido. Llamar a establish_tunnel() primero."

/-- `VPNTunnel.send_data` (src/src/vpn_pqc_simulation.py, lines 315 to 328):
raises unless the tunnel is established, otherwise returns the packet size,
the encryption time and the total elapsed time, both in milliseconds.  The
sampled encryption time and the measured wall-clock elapsed time are passed
in explicitly. -/
def VPNTunnel.send_data (t : VPNTunnel) (size_kb enc_time elapsed : ℚ) :
    Except String SendResult :=
  if t.established = false then .error tunnelNotEstablishedMsg
  else .ok { size_kb := size_kb
             encryption_time_ms := enc_time * 1000
             total_time_ms := elapsed * 1000 }

/-- `VPNTunnel.establish_tunnel` (src/src/vpn_pqc_simulation.py, lines 177
to 188 together with the two establish paths): dispatches on the type tag,
sets `established = True`, and returns the metric record. -/
def VPNTunnel.establish_tunnel (t : VPNTunnel) (d : TradDraws) (p : PQDraws) :
    VPNTunnel × VPNMetrics :=
  if t.tunnel_type == "Traditional" then
    ({ t with established := true }, establishTraditional t.packet_size_kb d)
  else
    ({ t with established := true }, establishPostQuantum t.packet_size_kb p)

/-- One row of the simulation results consumed by the analyzers: the columns
of `run_complete_simulation` (src/vpn_pqc_simulation.py, lines 252 to 261)
that the best-algorithm selections read. -/
structure AlgoResult where
  algorithm : String
  quantum_resistant : Bool
  key_size_bytes : ℚ
  key_exchange_time_ms : ℚ
  throughput_mbps : ℚ
  avg_cpu_usage_percent : ℚ
  memory_usage_mb : ℚ
deriving DecidableEq

/-- The running first-maximum of pandas `idxmax`: fold over the remaining
rows, replacing the current best only on strict improvement, so that among
tied rows the earliest one survives. -/
def runningMax {α : Type} (f : α → ℚ) (x : α) (xs : List α) : α :=
  xs.foldl (fun b y => if f b < f y then y else b) x

/-- `Series.idxmax` over a column: the first row attaining the maximum, or
none when the frame is empty (pandas raises on an all-NA/empty series). -/
def idxmaxBy {α : Type} (f : α → ℚ) : List α → Option α
  | [] => none
  | x :: xs => some (runningMax f x xs)

/-- The rows of the post-quantum sub-frame: `df[df["quantum_resistant"]]`. -/
def pqcRows (results : List AlgoResult) : List AlgoResult :=
  results.filter (fun r => r.quantum_resistant)

/-- The best-PQC-algorithm selection of `generate_executive_summary`
(src/run_all_simulations.py, lines 98 to 103):
`pqc.loc[pqc["throughput_mbps"].idxmax()]`, i.e. among quantum-resistant
rows only, the first row with maximal throughput. -/
def bestPQC (results : List AlgoResult) : Option AlgoResult :=
  idxmaxBy (fun r => r.throughput_mbps) (pqcRows results)

/-- The `CryptoType` enumeration of src/vpn_pqc_simulation.py, lines 21
to 30. -/
inductive CryptoType
  | RSA_2048
  | RSA_3072
  | ECC_P256
  | KYBER_512
  | KYBER_768
  | KYBER_1024
  | DILITHIUM_2
  | DILITHIUM_3
deriving DecidableEq

/-- The `CryptoParams` dataclass of src/vpn_pqc_simulation.py, lines 32
to 38. -/
structure CryptoParams where
  key_size : ℕ
  signature_size : ℕ
  cpu_cycles : ℕ
  quantum_resistant : Bool
deriving DecidableEq

/-- The `CRYPTO_PARAMS` dictionary of src/vpn_pqc_simulation.py, lines 41
to 50, keyed by `CryptoType`. -/
def cryptoParamsTable : List (CryptoType × CryptoParams) :=
  [(.RSA_2048, ⟨256, 256, 3000000, false⟩),
   (.RSA_3072, ⟨384, 384, 8000000, false⟩),
   (.ECC_P256, ⟨32, 64, 500000, false⟩),
   (.KYBER_512, ⟨800, 0, 60000, true⟩),
   (.KYBER_768, ⟨1184, 0, 90000, true⟩),
   (.KYBER_1024, ⟨1568, 0, 130000, true⟩),
   (.DILITHIUM_2, ⟨1312, 2420, 120000, true⟩),
   (.DILITHIUM_3, ⟨1952, 3293, 180000, true⟩)]

/-- The last-mile connection types generated by `_generate_user_locations`
(src/vpn_topology_simulation.py, line 32). -/
inductive ConnectionType
  | Fiber
  | Cable
  | DSL
  | FourG
deriving DecidableEq

/-- The `connection_factors` dictionary of
`simulate_concurrent_connections` (src/vpn_topology_simulation.py, lines 75
to 80): Fiber 1.0, Cable 1.2, DSL 1.5, 4G 1.8. -/
def connectionFactor : ConnectionType → ℚ
  | .Fiber => 1
  | .Cable => 6 / 5
  | .DSL => 3 / 2
  | .FourG => 9 / 5

/-- One entry of `self.user_locations`
(src/vpn_topology_simulation.py, lines 25 to 35). -/
structure UserLocation where
  distance_km : ℚ
  connection_type : ConnectionType
  bandwidth_mbps : ℚ
deriving DecidableEq

/-- The `base_times` dictionary of `simulate_concurrent_connections`
(src/vpn_topology_simulation.py, lines 58 to 66). -/
def baseTimes : List (String × ℚ) :=
  [("RSA-2048", 100), ("ECC-P256", 60), ("Kyber-512", 150), ("Kyber-768", 200),
   ("Kyber-1024", 250), ("Dilithium-2", 180), ("Dilithium-3", 220)]

/-- `base_times.get(crypto_type, 150)` (src/vpn_topology_simulation.py,
line 68): a dictionary lookup with the default value 150. -/
def baseTime (crypto_type : String) : ℚ :=
  (baseTimes.lookup crypto_type).getD 150

/-- The connection time of one attempt (src/vpn_topology_simulation.py,
lines 70 to 94): `base * (1 + distance_km / 1000) * connection_factor`,
tripled when the attempt fails.  The random failure draw is passed in as the
Boolean `fails`. -/
def connectionTime (base : ℚ) (u : UserLocation) (fails : Bool) : ℚ :=
  let distance_factor := 1 + u.distance_km / 1000
  let t := base * distance_factor * connectionFactor u.connection_type
  if fails then t * 3 else t

/-- `failure_probability = min(0.3, concurrent_users / 500)`
(src/vpn_topology_simulation.py, line 87). -/
def failureProbability (concurrent_users : ℚ) : ℚ :=
  min (3 / 10) (concurrent_users / 500)

/-- The metrics dictionary returned by `simulate_concurrent_connections`
(src/vpn_topology_simulation.py, lines 96 to 104). -/
structure ConcurrencyMetrics where
  crypto_type : String
  concurrent_users : ℕ
  avg_connection_time_ms : ℚ
  max_connection_time_ms : ℚ
  min_connection_time_ms : ℚ
  success_rate_percent : ℚ
  failed_connections : ℕ
deriving DecidableEq

/-- Maximum of a list of rationals, as `np.max` computes it on a non-empty
array. -/
def listMax : List ℚ → ℚ
  | [] => 0
  | x :: xs => xs.foldl max x

/-- Minimum of a list of rationals, as `np.min` computes it on a non-empty
array. -/
def listMin : List ℚ → ℚ
  | [] => 0
  | x :: xs => xs.foldl min x

/-- `RemoteAccessVPN.simulate_concurrent_connections`
(src/vpn_topology_simulation.py, lines 37 to 104).  The randomly sampled
active users, each with the outcome of its failure draw, are passed in as
`active_users`; `random.sample` guarantees
`active_users.length = min concurrent_users locations.length`.  The result
dictionary evaluates `np.mean` (silently NaN on an empty array), then
`np.max`, which raises `ValueError` on an empty array, and the success rate
`successful / concurrent_users * 100`, which raises `ZeroDivisionError`
when `concurrent_users` is zero; both failure modes are embedded as error
variants in the order Python hits them. -/
def simulateConcurrentConnections (crypto_type : String) (concurrent_users : ℕ)
    (active_users : List (UserLocation × Bool)) : Except String ConcurrencyMetrics :=
  let times := active_users.map (fun p => connectionTime (baseTime crypto_type) p.1 p.2)
  let successful := (active_users.filter (fun p => !p.2)).length
  let failed := (active_users.filter (fun p => p.2)).length
  if times = [] then .error "ValueError: zero-size array to reduction operation"
  else if concurrent_users = 0 then .error "ZeroDivisionError"
  else .ok
    { crypto_type := crypto_type
      concurrent_users := concurrent_users
      avg_connection_time_ms := times.sum / (times.length : ℚ)
      max_connection_time_ms := listMax times
      min_connection_time_ms := listMin times
      success_rate_percent := (successful : ℚ) / (concurrent_users : ℚ) * 100
      failed_connections := failed }

/-- Three result rows: one traditional with the best throughput overall and
two quantum-resistant rows tied on throughput. -/
def tieRows : List AlgoResult :=
  [{ algorithm := "RSA-2048", quantum_resistant := false, key_size_bytes := 256,
     key_exchange_time_ms := 10, throughput_mbps := 100,
     avg_cpu_usage_percent := 10, memory_usage_mb := 50 },
   { algorithm := "Kyber-512", quantum_resistant := true, key_size_bytes := 800,
     key_exchange_time_ms := 12, throughput_mbps := 50,
     avg_cpu_usage_percent := 12, memory_usage_mb := 60 },
   { algorithm := "Kyber-768", quantum_resistant := true, key_size_bytes := 1184,
     key_exchange_time_ms := 13, throughput_mbps := 50,
     avg_cpu_usage_percent := 13, memory_usage_mb := 70 }]

/-- The row `bestPQC` selects from `tieRows`: the first-inserted of the two
tied quantum-resistant rows. -/
def tieBest : AlgoResult :=
  { algorithm := "Kyber-512", quantum_resistant := true, key_size_bytes := 800,
    key_exchange_time_ms := 12, throughput_mbps := 50,
    avg_cpu_usage_percent := 12, memory_usage_mb := 60 }

/-- A concrete Cable user at 500 km. -/
def wCableUser : UserLocation :=
  { distance_km := 500, connection_type := .Cable, bandwidth_mbps := 50 }

/-- Two concrete connection attempts: one Fiber user at 100 km that
succeeds and one 4G user at 0 km whose attempt fails. -/
def wActive : List (UserLocation × Bool) :=
  [({ distance_km := 100, connection_type := .Fiber, bandwidth_mbps := 50 }, false),
   ({ distance_km := 0, connection_type := .FourG, bandwidth_mbps := 50 }, true)]

/-- The metrics row produced on `wActive` for Kyber-768 at two concurrent
users: times 220 and 1080 (the failed attempt tripled and still counted). -/
def wConcMetrics : ConcurrencyMetrics :=
  { crypto_type := "Kyber-768"
    concurrent_users := 2
    avg_connection_time_ms := 650
    max_connection_time_ms := 1080
    min_connection_time_ms := 220
    success_rate_percent := 50
    failed_connections := 1 }

end VPNSim

namespace VPNSim

/-- C1: for every traditional session, `handshake_total_time` is exactly
`keygen_time + kex_time`; for every post-quantum session it is exactly
`keygen + encapsulation + decapsulation + sign + verify`.  The bulk-encryption
test time is not part of either sum: replacing the sampled encryption time
changes neither total. -/
theorem handshake_total_time_is_exact_phase_sum
    (packet_size_kb : ℚ) (d : TradDraws) (p : PQDraws) (e : ℚ) :
    (establishTraditional packet_size_kb d).handshake_total_time =
        d.keygen_time + d.kex_time ∧
    (establishPostQuantum packet_size_kb p).handshake_total_time =
        p.keygen_time + p.encap_time + p.decap_time + p.sign_time + p.verify_time ∧
    (establishTraditional packet_size_kb { d with enc_time := e }).handshake_total_time =
        (establishTraditional packet_size_kb d).handshake_total_time ∧
    (establishPostQuantum packet_size_kb { p with enc_time := e }).handshake_total_time =
        (establishPostQuantum packet_size_kb p).handshake_total_time := by
  exact ⟨rfl, rfl, rfl, rfl⟩

/-- C10: in every session record of either family, the decryption time is
exactly 1.1 times the encryption time (`decryption_time = enc_time * 1.1`
in both establish paths). -/
theorem decryption_time_is_1_1_times_encryption
    (packet_size_kb : ℚ) (d : TradDraws) (p : PQDraws) :
    (establishTraditional packet_size_kb d).decryption_time =
        (11 / 10) * (establishTraditional packet_size_kb d).encryption_time ∧
    (establishPostQuantum packet_size_kb p).decryption_time =
        (11 / 10) * (establishPostQuantum packet_size_kb p).encryption_time := by
  constructor
  · show d.enc_time * (11 / 10) = (11 / 10) * d.enc_time
    ring
  · show p.enc_time * (11 / 10) = (11 / 10) * p.enc_time
    ring

/-- C2 counterexample: on a concrete record set with traditional throughput
mean 100 and post-quantum throughput mean 50, the report emits a throughput
value of 100 percent, while the claimed formula
`(pqc_mean / trad_mean - 1) * 100` gives -50 percent: the throughput
dimension does not use the post-quantum mean in the numerator. -/
theorem throughput_ratio_claim_false_on_cex :
    ¬ ((overheadAnalysis cexThroughputMetrics).toOption.map
          OverheadAnalysis.throughput_degradation_percent =
        some ((avgField (pqcRecords cexThroughputMetrics) (fun m => m.throughput_mbps) /
                avgField (tradRecords cexThroughputMetrics) (fun m => m.throughput_mbps)
              - 1) * 100)) := by
  simp [overheadAnalysis, tradAvgs, pqcAvgs, familyAvgs, avgField, avgValues,
    tradRecords, pqcRecords, cexThroughputMetrics, sampleMetric, List.filter_cons,
    Except.toOption]
  norm_num

/-- C2 amended: whenever the overhead computation returns a report, every
dimension except throughput equals `(pqc_mean / trad_mean - 1) * 100`, and
the throughput dimension equals `(trad_mean / pqc_mean - 1) * 100`, the
opposite orientation.  The handshake ratio is stated over the raw second
means: the shared factor 1000 cancels. -/
theorem overhead_ratio_orientation (metrics : List VPNMetrics) (r : OverheadAnalysis)
    (h : overheadAnalysis metrics = Except.ok r) :
    r.handshake_overhead_percent =
      (avgField (pqcRecords metrics) (fun m => m.handshake_total_time) /
        avgField (tradRecords metrics) (fun m => m.handshake_total_time) - 1) * 100 ∧
    r.latency_overhead_percent =
      ((pqcAvgs metrics).avg_latency_ms / (tradAvgs metrics).avg_latency_ms - 1) * 100 ∧
    r.throughput_degradation_percent =
      ((tradAvgs metrics).avg_throughput_mbps / (pqcAvgs metrics).avg_throughput_mbps - 1) * 100 ∧
    r.cpu_overhead_percent =
      ((pqcAvgs metrics).avg_cpu_percent / (tradAvgs metrics).avg_cpu_percent - 1) * 100 ∧
    r.memory_overhead_percent =
      ((pqcAvgs metrics).avg_memory_mb / (tradAvgs metrics).avg_memory_mb - 1) * 100 ∧
    r.key_size_increase_percent =
      ((pqcAvgs metrics).avg_key_size_bytes / (tradAvgs metrics).avg_key_size_bytes - 1) * 100 := by
  unfold overheadAnalysis at h
  split_ifs at h
  injection h with h
  subst h
  refine ⟨?_, rfl, rfl, rfl, rfl, rfl⟩
  show ((pqcAvgs metrics).avg_handshake_ms / (tradAvgs metrics).avg_handshake_ms - 1) * 100 = _
  unfold pqcAvgs tradAvgs familyAvgs
  rw [mul_div_mul_right _ _ (by norm_num : (1000 : ℚ) ≠ 0)]

/-- C2 witness: the amended orientation theorem evaluated on the concrete
record set, where the report is computed explicitly. -/
theorem overhead_ratio_orientation_witness :
    cexReport.throughput_degradation_percent =
      ((tradAvgs cexThroughputMetrics).avg_throughput_mbps /
        (pqcAvgs cexThroughputMetrics).avg_throughput_mbps - 1) * 100 :=
  (overhead_ratio_orientation cexThroughputMetrics cexReport
    (by simp [overheadAnalysis, tradAvgs, pqcAvgs, familyAvgs, avgField, avgValues,
          tradRecords, pqcRecords, cexThroughputMetrics, sampleMetric, cexReport,
          List.filter_cons]
        norm_num)).2.2.1

/-- C3 counterexample: on a concrete record set whose traditional throughput
mean is exactly zero, the overhead computation does not raise any
division-by-zero condition: it returns a full report, whose throughput
dimension carries the finite value -100. -/
theorem zero_trad_throughput_mean_not_flagged :
    avgField (tradRecords cexZeroTradThroughput) (fun m => m.throughput_mbps) = 0 ∧
    (overheadAnalysis cexZeroTradThroughput).toOption.map
        OverheadAnalysis.throughput_degradation_percent = some (-100) := by
  constructor
  · simp [avgField, avgValues, tradRecords, cexZeroTradThroughput, sampleMetric,
      List.filter_cons]
  · simp [overheadAnalysis, tradAvgs, pqcAvgs, familyAvgs, avgField, avgValues,
      tradRecords, pqcRecords, cexZeroTradThroughput, sampleMetric, List.filter_cons,
      Except.toOption]

/-- C3 amended: the computation raises the explicit `ZeroDivisionError`
variant, and returns no value at all, exactly when the denominator of some
dimension is zero; the denominator is the traditional mean for handshake,
latency, CPU, memory and key size, but the post-quantum mean for throughput.
A zero traditional throughput mean alone triggers nothing.  No infinite or
NaN value can be produced, since every division with a zero denominator
yields the error variant instead of a number. -/
theorem zero_denominator_raises_zero_division (metrics : List VPNMetrics)
    (h : (tradAvgs metrics).avg_handshake_ms = 0 ∨
         (tradAvgs metrics).avg_latency_ms = 0 ∨
         (pqcAvgs metrics).avg_throughput_mbps = 0 ∨
         (tradAvgs metrics).avg_cpu_percent = 0 ∨
         (tradAvgs metrics).avg_memory_mb = 0 ∨
         (tradAvgs metrics).avg_key_size_bytes = 0) :
    overheadAnalysis metrics = Except.error "ZeroDivisionError" := by
  unfold overheadAnalysis
  split_ifs with h1 h2 h3 h4 h5 h6
  · rfl
  · rfl
  · rfl
  · rfl
  · rfl
  · rfl
  · rcases h with h | h | h | h | h | h
    exacts [absurd h h1, absurd h h2, absurd h h3, absurd h h4, absurd h h5, absurd h h6]

/-- C3 witness: on a record set with no traditional records, every
traditional mean is zero and the computation evaluates to the explicit
`ZeroDivisionError` variant. -/
theorem zero_denominator_raises_zero_division_witness :
    overheadAnalysis [sampleMetric "PostQuantum" 1 1] = Except.error "ZeroDivisionError" :=
  zero_denominator_raises_zero_division [sampleMetric "PostQuantum" 1 1]
    (Or.inl (by simp [tradAvgs, familyAvgs, avgField, avgValues, tradRecords,
      sampleMetric, List.filter_cons]))

/-- C6: the per-family mean of an empty record set is 0 for every field and
nothing is raised (the helper is total); the standard deviation of an empty
or single-record family is 0 for every field; and only with at least two
records is the standard deviation computed from the sample formula. -/
theorem aggregation_empty_and_single_record
    (f : VPNMetrics → ℚ) (m : VPNMetrics) (ms : List VPNMetrics) :
    avgField [] f = 0 ∧
    stdevField [] f = 0 ∧
    stdevField [m] f = 0 ∧
    (2 ≤ ms.length → stdevField ms f = sampleStdev (ms.map f)) := by
  refine ⟨rfl, rfl, rfl, fun h => ?_⟩
  unfold stdevField
  rw [if_pos]
  rw [List.length_map]
  omega

/-- C6 witness: the aggregation theorem evaluated at a concrete field, a
concrete single record, and a concrete two-record family. -/
theorem aggregation_empty_and_single_record_witness :
    avgField [] (fun m => m.latency_ms) = 0 ∧
    stdevField [] (fun m => m.latency_ms) = 0 ∧
    stdevField [sampleMetric "Traditional" 100 1] (fun m => m.latency_ms) = 0 ∧
    stdevField cexThroughputMetrics (fun m => m.latency_ms) =
      sampleStdev (cexThroughputMetrics.map (fun m => m.latency_ms)) := by
  obtain ⟨h1, h2, h3, h4⟩ :=
    aggregation_empty_and_single_record (fun m => m.latency_ms)
      (sampleMetric "Traditional" 100 1) cexThroughputMetrics
  exact ⟨h1, h2, h3, h4 (by decide)⟩

/-- C4: a freshly constructed tunnel is unestablished; `send_data` on an
unestablished tunnel raises the tunnel-not-established error for every
size; `send_data` on an established tunnel succeeds, returning the size and
the elapsed and encryption times in milliseconds; and `establish_tunnel`
is exactly what establishes a tunnel. -/
theorem send_data_requires_established (ty : String) (psz : ℚ) (t : VPNTunnel)
    (size_kb enc_time elapsed : ℚ) (d : TradDraws) (p : PQDraws) :
    (VPNTunnel.init ty psz).established = false ∧
    (t.established = false →
      t.send_data size_kb enc_time elapsed = Except.error tunnelNotEstablishedMsg) ∧
    (t.established = true →
      t.send_data size_kb enc_time elapsed =
        Except.ok { size_kb := size_kb
                    encryption_time_ms := enc_time * 1000
                    total_time_ms := elapsed * 1000 }) ∧
    (t.establish_tunnel d p).1.established = true := by
  refine ⟨rfl, fun h => ?_, fun h => ?_, ?_⟩
  · unfold VPNTunnel.send_data
    rw [if_pos h]
  · unfold VPNTunnel.send_data
    rw [if_neg (by rw [h]; simp)]
  · unfold VPNTunnel.establish_tunnel
    split <;> rfl

/-- C4 witness: the theorem applied to a freshly constructed tunnel and to
an established one, at concrete sizes and times. -/
theorem send_data_requires_established_witness :
    (VPNTunnel.init "Traditional" 100).send_data 100 1 2 =
      Except.error tunnelNotEstablishedMsg ∧
    (VPNTunnel.mk "Traditional" 100 true).send_data 100 1 2 =
      Except.ok { size_kb := (100 : ℚ)
                  encryption_time_ms := 1 * 1000
                  total_time_ms := 2 * 1000 } := by
  constructor
  · exact (send_data_requires_established "Traditional" 100
      (VPNTunnel.init "Traditional" 100) 100 1 2
      ⟨0, 0, 0, 0, 0, 0, 0, 0, 0⟩ ⟨0, 0, 0, 0, 0, 0, 0, 0, 0, 0, 0, 0⟩).2.1 rfl
  · exact (send_data_requires_established "Traditional" 100
      (VPNTunnel.mk "Traditional" 100 true) 100 1 2
      ⟨0, 0, 0, 0, 0, 0, 0, 0, 0⟩ ⟨0, 0, 0, 0, 0, 0, 0, 0, 0, 0, 0, 0⟩).2.2.1 rfl

/-- C8: at `concurrent_users = 0` no user is sampled, so the attempt list is
empty and the load model does not return a well-defined zero-metric result:
it evaluates to the error the source raises (`np.max` of the empty
connection-time array raises `ValueError`, and the success-rate division
`0 / 0` would raise `ZeroDivisionError`). -/
theorem concurrency_zero_users_raises :
    simulateConcurrentConnections "RSA-2048" 0 [] =
      Except.error "ValueError: zero-size array to reduction operation" := rfl

/-- C9 counterexample: the name ChaCha20 is absent from the base-time table
of the load model, yet its base-time lookup does not fail: it returns the
default value 150. -/
theorem unknown_algorithm_claim_false_on_cex :
    baseTimes.lookup "ChaCha20" = none ∧ baseTime "ChaCha20" = 150 := by
  constructor <;> rfl

/-- C9 amended: for every algorithm name absent from the base-time table,
the load model silently substitutes the default base time 150 instead of
failing; and the profile registry `CRYPTO_PARAMS` is keyed by the
`CryptoType` enumeration and contains every member, so a profile lookup
cannot fail at all. -/
theorem unknown_algorithm_gets_default_base_time (s : String)
    (h : baseTimes.lookup s = none) :
    baseTime s = 150 ∧
    ∀ c : CryptoType, (cryptoParamsTable.lookup c).isSome = true := by
  constructor
  · unfold baseTime
    rw [h]
    rfl
  · intro c
    cases c <;> rfl

/-- C9 witness: the amended theorem at the absent name ChaCha20 and the
registry member Kyber-768. -/
theorem unknown_algorithm_gets_default_base_time_witness :
    baseTime "ChaCha20" = 150 ∧
    (cryptoParamsTable.lookup CryptoType.KYBER_768).isSome = true := by
  obtain ⟨h1, h2⟩ := unknown_algorithm_gets_default_base_time "ChaCha20" rfl
  exact ⟨h1, h2 CryptoType.KYBER_768⟩

/-- C7: a successful attempt takes
`base * (1 + distance_km / 1000) * link_factor`; a failed attempt takes
exactly three times that; the per-link multipliers are the fixed constants
1, 1.2, 1.5 and 1.8, with Fiber the cheapest and 4G the most expensive;
the failure probability is `min(0.3, load / 500)`, monotone in the load and
never above 0.3; and whenever the load model returns metrics, the mean,
maximum and minimum are taken over the connection times of all attempts,
the failed ones included. -/
theorem concurrency_attempt_time_and_failure_model (base q1 q2 : ℚ) (u : UserLocation) :
    connectionTime base u false =
      base * (1 + u.distance_km / 1000) * connectionFactor u.connection_type ∧
    connectionTime base u true = connectionTime base u false * 3 ∧
    connectionFactor .Fiber = 1 ∧
    connectionFactor .Cable = 6 / 5 ∧
    connectionFactor .DSL = 3 / 2 ∧
    connectionFactor .FourG = 9 / 5 ∧
    (∀ c, connectionFactor .Fiber ≤ connectionFactor c ∧
      connectionFactor c ≤ connectionFactor .FourG) ∧
    (q1 ≤ q2 → failureProbability q1 ≤ failureProbability q2) ∧
    failureProbability q1 ≤ 3 / 10 ∧
    (∀ crypto users act r,
      simulateConcurrentConnections crypto users act = Except.ok r →
      r.avg_connection_time_ms =
        (act.map (fun p => connectionTime (baseTime crypto) p.1 p.2)).sum /
          ((act.map (fun p => connectionTime (baseTime crypto) p.1 p.2)).length : ℚ) ∧
      r.max_connection_time_ms =
        listMax (act.map (fun p => connectionTime (baseTime crypto) p.1 p.2)) ∧
      r.min_connection_time_ms =
        listMin (act.map (fun p => connectionTime (baseTime crypto) p.1 p.2))) := by
  refine ⟨by simp [connectionTime], by simp [connectionTime], rfl, rfl, rfl, rfl,
    ?_, ?_, min_le_left _ _, ?_⟩
  · intro c
    cases c <;> constructor <;> norm_num [connectionFactor]
  · intro h
    exact min_le_min le_rfl (by linarith)
  · intro crypto users act r h
    simp only [simulateConcurrentConnections] at h
    split_ifs at h
    injection h with h
    subst h
    exact ⟨rfl, rfl, rfl⟩

/-- C7 witness: the theorem applied to a concrete Cable user at 500 km,
loads 100 and 200, and the two-attempt run recorded in `wConcMetrics`,
where the failed 4G attempt contributes the tripled time 1080 to the mean,
maximum and minimum. -/
theorem concurrency_attempt_time_and_failure_model_witness :
    connectionTime 100 wCableUser false =
      100 * (1 + wCableUser.distance_km / 1000) *
        connectionFactor wCableUser.connection_type ∧
    failureProbability 100 ≤ failureProbability 200 ∧
    failureProbability 100 ≤ 3 / 10 ∧
    wConcMetrics.avg_connection_time_ms =
      (wActive.map (fun p => connectionTime (baseTime "Kyber-768") p.1 p.2)).sum /
        ((wActive.map (fun p => connectionTime (baseTime "Kyber-768") p.1 p.2)).length : ℚ) ∧
    wConcMetrics.max_connection_time_ms =
      listMax (wActive.map (fun p => connectionTime (baseTime "Kyber-768") p.1 p.2)) := by
  obtain ⟨h1, -, -, -, -, -, -, h8, h9, h10⟩ :=
    concurrency_attempt_time_and_failure_model 100 100 200 wCableUser
  have hrun : simulateConcurrentConnections "Kyber-768" 2 wActive =
      Except.ok wConcMetrics := by
    have hbt : baseTime "Kyber-768" = 200 := rfl
    simp only [simulateConcurrentConnections, wActive, wConcMetrics, List.map,
      List.filter, connectionTime, hbt, connectionFactor, listMax, listMin,
      List.foldl]
    norm_num [max_def, min_def]
    intro hcontra
    simp at hcontra
  obtain ⟨ha, hb, -⟩ := h10 "Kyber-768" 2 wActive wConcMetrics hrun
  exact ⟨h1, h8 (by norm_num), h9, ha, hb⟩

/-- Characterisation of the first-maximum fold behind `idxmax`: the result
is an element of the traversed list, it bounds every element from above,
and every element strictly before it in the list is strictly below it, so
among tied elements the earliest wins. -/
theorem runningMax_first_max {α : Type} (f : α → ℚ) :
    ∀ (xs : List α) (x : α),
      runningMax f x xs ∈ x :: xs ∧
      (∀ y ∈ x :: xs, f y ≤ f (runningMax f x xs)) ∧
      ∃ l1 l2, x :: xs = l1 ++ runningMax f x xs :: l2 ∧
        ∀ y ∈ l1, f y < f (runningMax f x xs) := by
  intro xs
  induction xs with
  | nil =>
    intro x
    refine ⟨List.mem_singleton.mpr rfl, ?_, [], [], rfl, ?_⟩
    · intro y hy
      rw [List.mem_singleton.mp hy]
      exact le_refl _
    · intro y hy
      exact absurd hy (List.not_mem_nil y)
  | cons a as ih =>
    intro x
    by_cases hc : f x < f a
    · have hr : runningMax f x (a :: as) = runningMax f a as := by
        show runningMax f (if f x < f a then a else x) as = runningMax f a as
        rw [if_pos hc]
      obtain ⟨hmem, hbound, l1, l2, hdec, hl1⟩ := ih a
      rw [hr]
      have hxm : f x < f (runningMax f a as) :=
        lt_of_lt_of_le hc (hbound a (List.mem_cons_self a as))
      refine ⟨List.mem_cons_of_mem x hmem, ?_, x :: l1, l2, ?_, ?_⟩
      · intro y hy
        rcases List.mem_cons.mp hy with h1 | h2
        · rw [h1]
          exact le_of_lt hxm
        · exact hbound y h2
      · rw [List.cons_append, ← hdec]
      · intro y hy
        rcases List.mem_cons.mp hy with h1 | h2
        · rw [h1]
          exact hxm
        · exact hl1 y h2
    · have hr : runningMax f x (a :: as) = runningMax f x as := by
        show runningMax f (if f x < f a then a else x) as = runningMax f x as
        rw [if_neg hc]
      obtain ⟨hmem, hbound, l1, l2, hdec, hl1⟩ := ih x
      rw [hr]
      have hax : f a ≤ f x := le_of_not_lt hc
      have hxm : f x ≤ f (runningMax f x as) := hbound x (List.mem_cons_self x as)
      refine ⟨?_, ?_, ?_⟩
      · rcases List.mem_cons.mp hmem with h1 | h2
        · rw [h1]
          exact List.mem_cons_self _ _
        · exact List.mem_cons_of_mem x (List.mem_cons_of_mem a h2)
      · intro y hy
        rcases List.mem_cons.mp hy with h1 | h2
        · rw [h1]
          exact hxm
        · rcases List.mem_cons.mp h2 with h3 | h4
          · rw [h3]
            exact le_trans hax hxm
          · exact hbound y (List.mem_cons_of_mem x h4)
      · cases l1 with
        | nil =>
          rw [List.nil_append] at hdec
          injection hdec with h1 h2
          refine ⟨[], a :: as, ?_, ?_⟩
          · rw [List.nil_append, ← h1]
          · intro y hy
            exact absurd hy (List.not_mem_nil y)
        | cons b t =>
          rw [List.cons_append] at hdec
          injection hdec with h1 h2
          have hblt : f x < f (runningMax f x as) := by
            have hb := hl1 b (List.mem_cons_self b t)
            rwa [← h1] at hb
          refine ⟨x :: a :: t, l2, ?_, ?_⟩
          · conv_lhs => rw [h2]
            rw [List.cons_append, List.cons_append]
          · intro y hy
            rcases List.mem_cons.mp hy with h3 | h4
            · rw [h3]
              exact hblt
            · rcases List.mem_cons.mp h4 with h5 | h6
              · rw [h5]
                exact lt_of_le_of_lt hax hblt
              · exact hl1 y (List.mem_cons_of_mem b h6)

/-- C5: whenever the best-algorithm selection returns a row, that row is
quantum resistant and comes from the input; no quantum-resistant row beats
its throughput; and within the quantum-resistant sub-frame every row placed
before the returned one is strictly worse, so ties on the criterion are
broken by insertion order of first occurrence.  The selection is a pure
function of the ordered input, so repeated invocation on the same ordered
records returns the same row. -/
theorem best_algorithm_qr_only_first_seen (rs : List AlgoResult) (r : AlgoResult)
    (h : bestPQC rs = some r) :
    r.quantum_resistant = true ∧
    r ∈ rs ∧
    (∀ x ∈ rs, x.quantum_resistant = true → x.throughput_mbps ≤ r.throughput_mbps) ∧
    ∃ l1 l2, pqcRows rs = l1 ++ r :: l2 ∧
      ∀ x ∈ l1, x.throughput_mbps < r.throughput_mbps := by
  unfold bestPQC at h
  cases hfil : pqcRows rs with
  | nil =>
    rw [hfil] at h
    exact Option.noConfusion h
  | cons x xs =>
    rw [hfil] at h
    simp only [idxmaxBy] at h
    injection h with h
    subst h
    obtain ⟨hmem, hbound, l1, l2, hdec, hl1⟩ :=
      runningMax_first_max (fun a => a.throughput_mbps) xs x
    have hmem2 : runningMax (fun a => a.throughput_mbps) x xs ∈ pqcRows rs := by
      rw [hfil]
      exact hmem
    have hfm := List.mem_filter.mp hmem2
    refine ⟨hfm.2, hfm.1, ?_, l1, l2, ?_, hl1⟩
    · intro y hy hqr
      have hyf : y ∈ pqcRows rs := List.mem_filter.mpr ⟨hy, hqr⟩
      rw [hfil] at hyf
      exact hbound y hyf
    · exact hdec

/-- C5 witness: on three concrete rows, a non-resistant row with the best
overall throughput and two quantum-resistant rows tied at 50 Mbps, the
selection returns the first-inserted Kyber-512 row: it ignores the
non-resistant leader and breaks the tie by insertion order. -/
theorem best_algorithm_qr_only_first_seen_witness :
    tieBest.quantum_resistant = true ∧
    tieBest ∈ tieRows ∧
    (∀ x ∈ tieRows, x.quantum_resistant = true →
      x.throughput_mbps ≤ tieBest.throughput_mbps) ∧
    ∃ l1 l2, pqcRows tieRows = l1 ++ tieBest :: l2 ∧
      ∀ x ∈ l1, x.throughput_mbps < tieBest.throughput_mbps :=
  best_algorithm_qr_only_first_seen tieRows tieBest (by decide)

end VPNSim
